import Mathlib

/-!
Verification of the console-report layer of fuck-u-code
(pkg/report/report.go), as a shallow embedding in Lean 4.

Modelling conventions:
* Go float64 score arithmetic is embedded over ℚ.  All operations the
  report performs on scores (comparisons, scaling by 100, math.Round,
  int-conversion truncation, integer division) are exact on the values
  involved, so ℚ is a faithful carrier.
* Go int is embedded as ℤ; Go integer division truncates toward zero,
  which is Int.tdiv; Go int(x) conversion of a float64 also truncates
  toward zero (goInt below); math.Round rounds half away from zero
  (goRound below).
* Go strings are embedded as Lean String, with the byte-level operations
  strings.Contains and strings.ToLower modelled on the rune list
  (String.data).  UTF-8 is self-synchronising, so byte-level substring
  containment of valid strings coincides with rune-level containment.
  strings.ToLower is modelled by per-character lowering; the CJK keyword
  characters used by the classifiers are case-invariant.
* The Go string-keyed map fields are embedded as association lists and
  lookup functions; map iteration order is arbitrary in Go, and every
  property proved below is insensitive to it (sums and the sorted
  presentation order are permutation-invariant).
* Go sort.Slice (an unspecified, unstable comparison sort) is embedded as
  List.insertionSort with the reflexive closure of the Go comparator:
  any run of the Go code produces some permutation sorted in this order,
  and insertionSort produces one such permutation.
* The console printers only read their Report; mutation opportunities
  (sort.Slice works in place) are made visible by state-passing: every
  embedded printer returns the AnalysisResult it operated on next to the
  text it produced.  Pure text formatting (column padding, ANSI colour
  codes, the three-per-line category layout) is abbreviated; no claim
  below concerns the rendered layout.
-/

/-- Terminal colour attributes used by the report (constants of the
fatih/color package appearing in report.go). -/
inductive GoColor where
  | FgHiYellow | FgHiCyan | FgHiGreen | FgHiRed | FgMagenta | FgHiMagenta
  | FgBlue | FgGreen | FgCyan | FgYellow | FgRed | FgHiWhite
  deriving Repr, DecidableEq

/-- Style goodStyle, that is color.New(color.FgHiGreen) (report.go
line 22). -/
def goodStyle : GoColor := GoColor.FgHiGreen

/-- Style warningStyle, that is color.New(color.FgHiYellow) (report.go
line 23). -/
def warningStyle : GoColor := GoColor.FgHiYellow

/-- Style dangerStyle, that is color.New(color.FgHiRed) (report.go
line 24). -/
def dangerStyle : GoColor := GoColor.FgHiRed

/-- Record analyzer.MetricResult: the repository-level result of one
metric. -/
structure MetricResult where
  Name : String
  Weight : ℚ
  Score : ℚ
  Description : String
  deriving Repr, DecidableEq

/-- Record analyzer.FileAnalysisResult: the result of one analyzed
file. -/
structure FileAnalysisResult where
  FilePath : String
  FileScore : ℚ
  Issues : List String
  deriving Repr, DecidableEq

/-- Record analyzer.AnalysisResult: what the report layer consumes.
The Metrics field is a Go map from metric name to MetricResult; it is
embedded as an association list of key-value pairs. -/
structure AnalysisResult where
  TotalFiles : ℤ
  TotalLines : ℤ
  Metrics : List (String × MetricResult)
  FilesAnalyzed : List FileAnalysisResult
  CodeQualityScore : ℚ
  deriving Repr, DecidableEq

/-- One entry of the QualityLevels table (report.go lines 37-54). -/
structure QualityLevel where
  MinScore : ℚ
  NameKey : String
  Description : String
  Emoji : String
  deriving Repr, DecidableEq

/-- The fixed quality-level table QualityLevels (report.go lines 37-54). -/
def QualityLevels : List QualityLevel :=
  [ ⟨0, "level.clean", "level.clean.description", "🌱"⟩,
    ⟨10, "level.mild", "level.mild.description", "🌸"⟩,
    ⟨20, "level.moderate", "level.moderate.description", "😐"⟩,
    ⟨30, "level.bad", "level.bad.description", "😷"⟩,
    ⟨40, "level.terrible", "level.terrible.description", "💩"⟩,
    ⟨50, "level.disaster", "level.disaster.description", "🤕"⟩,
    ⟨60, "level.disaster.severe", "level.disaster.severe.description", "☣️"⟩,
    ⟨70, "level.disaster.very_bad", "level.disaster.very_bad.description", "🧟"⟩,
    ⟨80, "level.disaster.extreme", "level.disaster.extreme.description", "☢️"⟩,
    ⟨90, "level.disaster.worst", "level.disaster.worst.description", "🪦"⟩,
    ⟨100, "level.disaster.ultimate", "level.disaster.ultimate.description", "👑💩"⟩ ]

/-- UI language of the translator (i18n.Language). -/
inductive Lang where
  | ZhCN | EnUS
  deriving Repr, DecidableEq

/-- Abstraction of the i18n.Translator interface: a key-to-text mapping
plus the current language.  Format arguments of Translate(key, args...)
are rendered next to the translated key by the callers below. -/
structure Translator where
  translate : String → String
  language : Lang

/-- Go conversion int(x) of a float64: truncation toward zero. -/
def goInt (q : ℚ) : ℤ :=
  if 0 ≤ q then ⌊q⌋ else -⌊-q⌋

/-- Go math.Round(x): round half away from zero. -/
def goRound (q : ℚ) : ℚ :=
  if 0 ≤ q then ((⌊q + 1/2⌋ : ℤ) : ℚ) else -((⌊-q + 1/2⌋ : ℤ) : ℚ)

/-- Scan of the loop in getQualityLevel (report.go lines 621-626): indices
are visited from the highest downward and the first entry with
score at least MinScore wins.  Recursing on the tail first visits later
(higher) entries first, exactly like the downward loop. -/
def findLevelDesc (score : ℚ) : List QualityLevel → Option QualityLevel
  | [] => none
  | l :: rest =>
    match findLevelDesc score rest with
    | some r => some r
    | none => if l.MinScore ≤ score then some l else none

/-- Go function getQualityLevel (report.go lines 613-628): the loop above,
defaulted to the first table entry when no entry matches. -/
def getQualityLevel (score : ℚ) : QualityLevel :=
  match findLevelDesc score QualityLevels with
  | some l => l
  | none => QualityLevels.getD 0 ⟨0, "", "", ""⟩

/-- Modelled from the spec: the quality level claim C1 prescribes — the
entry of the table whose band contains the displayed percentage score
(100 times the raw score): the greatest MinScore at most that percentage,
found by high-to-low lookup. -/
def qualityLevelOfDisplayedScore (score : ℚ) : QualityLevel :=
  match findLevelDesc (100 * score) QualityLevels with
  | some l => l
  | none => QualityLevels.getD 0 ⟨0, "", "", ""⟩

/-- Go function getScoreComment (report.go lines 578-590): rescale to
percent, truncate to a 10-wide band, cap at 90, and translate the key
score.comment.<band>. -/
def getScoreComment (t : Translator) (score : ℚ) : String :=
  let score := score * 100
  let scoreRange := (goInt score).tdiv 10 * 10
  let scoreRange := if 90 < scoreRange then 90 else scoreRange
  t.translate ("score.comment." ++ toString scoreRange)

/-- Go function printScoreComment (report.go lines 301-313): pick the
style by comparing the raw score against 30 and 70, and print the comment
with it.  The embedding returns the chosen style and the printed
comment. -/
def printScoreComment (t : Translator) (score : ℚ) : GoColor × String :=
  let comment := getScoreComment t score
  if score < 30 then (goodStyle, comment)
  else if score < 70 then (warningStyle, comment)
  else (dangerStyle, comment)

/-- Concrete translator (the identity on keys) used by witnesses. -/
def trId : Translator := ⟨fun k => k, Lang.ZhCN⟩

/-- Rune-level substring containment: strings.Contains on the character
list (the empty needle is contained everywhere, as in Go). -/
def charsContain (l sub : List Char) : Bool :=
  match l with
  | [] => sub.isEmpty
  | c :: t => sub.isPrefixOf (c :: t) || charsContain t sub

/-- Go strings.Contains(s, sub) on the embedded strings. -/
def goContains (s sub : String) : Bool :=
  charsContain s.data sub.data

/-- Go strings.ToLower(s): per-character lowering (the classifier keywords
are ASCII or case-invariant CJK, on which this agrees with Go). -/
def goToLower (s : String) : String :=
  ⟨s.data.map Char.toLower⟩

/-- The seven issue categories the report layer distinguishes. -/
inductive Category where
  | complexity | comment | naming | struct | duplication | error | other
  deriving Repr, DecidableEq

/-- The Go map key naming each category (the keys of categorizeIssues,
report.go lines 471-479). -/
def categoryKey : Category → String
  | Category.complexity => "complexity"
  | Category.comment => "comment"
  | Category.naming => "naming"
  | Category.struct => "structure"
  | Category.duplication => "duplication"
  | Category.error => "error"
  | Category.other => "other"

/-- The keyword switch of categorizeIssues (report.go lines 481-500):
the category whose counter is incremented for one issue string. -/
def classifyIssue (issue : String) : Category :=
  let lowerIssue := goToLower issue
  if goContains lowerIssue "复杂度" || goContains lowerIssue "complexity" then
    Category.complexity
  else if goContains lowerIssue "注释" || goContains lowerIssue "comment" then
    Category.comment
  else if goContains lowerIssue "命名" || goContains lowerIssue "name" ||
      goContains lowerIssue "naming" then
    Category.naming
  else if goContains lowerIssue "结构" || goContains lowerIssue "嵌套" ||
      goContains lowerIssue "structure" || goContains lowerIssue "nest" then
    Category.struct
  else if goContains lowerIssue "重复" || goContains lowerIssue "duplication" then
    Category.duplication
  else if goContains lowerIssue "错误" || goContains lowerIssue "error" then
    Category.error
  else
    Category.other

/-- The fixed list of all categories, in the initialisation order of the
map literal in categorizeIssues. -/
def allCategories : List Category :=
  [Category.complexity, Category.comment, Category.naming, Category.struct,
   Category.duplication, Category.error, Category.other]

/-- The per-category counters after the loop of categorizeIssues
(report.go lines 481-500): start at zero for every category, add one to
the matched category of each issue in order. -/
def countCategories (issues : List String) : Category → ℕ :=
  issues.foldl
    (fun acc i => fun c => if c = classifyIssue i then acc c + 1 else acc c)
    (fun _ => 0)

/-- Which Category a map key of the categorizeIssues result stands for
(the map only ever holds the seven fixed keys). -/
def categoryOfKey (k : String) : Option Category :=
  if k = "complexity" then some Category.complexity
  else if k = "comment" then some Category.comment
  else if k = "naming" then some Category.naming
  else if k = "structure" then some Category.struct
  else if k = "duplication" then some Category.duplication
  else if k = "error" then some Category.error
  else if k = "other" then some Category.other
  else none

/-- Go function categorizeIssues (report.go lines 469-510) as a map:
count per category, then delete the zero-count entries; keys other than
the seven fixed ones were never inserted. -/
def categorizeIssues (issues : List String) (k : String) : Option ℕ :=
  match categoryOfKey k with
  | some c =>
    let n := countCategories issues c
    if n = 0 then none else some n
  | none => none

/-- Icon of each category in the categoryInfo table of printTopIssues and
printAllFiles (report.go lines 362-373). -/
def categoryIcon : Category → String
  | Category.complexity => "🔄 "
  | Category.comment => "📝 "
  | Category.naming => "🏷️  "
  | Category.struct => "🏗️  "
  | Category.duplication => "📋 "
  | Category.error => "❌ "
  | Category.other => "⚠️  "

/-- Colour of each category in the categoryInfo table of printTopIssues
and printAllFiles (report.go lines 362-373). -/
def categoryColor : Category → GoColor
  | Category.complexity => GoColor.FgMagenta
  | Category.comment => GoColor.FgBlue
  | Category.naming => GoColor.FgCyan
  | Category.struct => GoColor.FgYellow
  | Category.duplication => GoColor.FgRed
  | Category.error => GoColor.FgHiRed
  | Category.other => GoColor.FgHiYellow

/-- Go function getIssueIconAndColor (report.go lines 512-532): the
second, independent keyword switch, returning an icon and a colour
directly. -/
def getIssueIconAndColor (issue : String) : String × GoColor :=
  let lowerIssue := goToLower issue
  if goContains lowerIssue "复杂度" || goContains lowerIssue "complexity" then
    ("🔄 ", GoColor.FgMagenta)
  else if goContains lowerIssue "注释" || goContains lowerIssue "comment" then
    ("📝 ", GoColor.FgBlue)
  else if goContains lowerIssue "命名" || goContains lowerIssue "name" ||
      goContains lowerIssue "naming" then
    ("🏷️  ", GoColor.FgCyan)
  else if goContains lowerIssue "结构" || goContains lowerIssue "嵌套" ||
      goContains lowerIssue "structure" || goContains lowerIssue "nest" then
    ("🏗️  ", GoColor.FgYellow)
  else if goContains lowerIssue "重复" || goContains lowerIssue "duplication" then
    ("📋 ", GoColor.FgRed)
  else if goContains lowerIssue "错误" || goContains lowerIssue "error" then
    ("❌ ", GoColor.FgHiRed)
  else
    ("⚠️  ", GoColor.FgHiYellow)

/-- Disjunction of all keyword tests of categorizeIssues (the category
keywords of claim C7), applied to the lowercased issue text. -/
def hasCategoryKeyword (issue : String) : Bool :=
  let l := goToLower issue
  goContains l "复杂度" || goContains l "complexity" ||
  goContains l "注释" || goContains l "comment" ||
  goContains l "命名" || goContains l "name" || goContains l "naming" ||
  goContains l "结构" || goContains l "嵌套" || goContains l "structure" ||
  goContains l "nest" ||
  goContains l "重复" || goContains l "duplication" ||
  goContains l "错误" || goContains l "error"

/-- Sum of one category-to-count table over all seven categories. -/
def total7 (f : Category → ℕ) : ℕ :=
  f Category.complexity + f Category.comment + f Category.naming +
  f Category.struct + f Category.duplication + f Category.error +
  f Category.other

/-- Go function getSortedMetrics (report.go lines 592-602): collect the
map values and sort them by ascending Score.  Go sort.Slice with the
strict less-than comparator yields some permutation that is
non-decreasing in Score; insertionSort on the corresponding
less-or-equal produces one such. -/
def getSortedMetrics (r : AnalysisResult) : List MetricResult :=
  List.insertionSort (fun a b => a.Score ≤ b.Score) (r.Metrics.map Prod.snd)

/-- Go function getSortedFiles (report.go lines 604-611): copy
FilesAnalyzed into a fresh slice (the Go append onto an empty slice —
the nil-append below), sort the copy by descending FileScore, and return
it.  State-passing makes it visible that the sort acts on the copy: the
AnalysisResult comes back unchanged. -/
def getSortedFiles (r : AnalysisResult) :
    AnalysisResult × List FileAnalysisResult :=
  let worstFiles := [] ++ r.FilesAnalyzed
  let worstFiles :=
    List.insertionSort (fun a b => b.FileScore ≤ a.FileScore) worstFiles
  (r, worstFiles)

/-- Accumulation of totalWeight in the loop of printMetricItems
(report.go lines 164-167). -/
def metricsTotalWeight (metrics : List MetricResult) : ℚ :=
  metrics.foldl (fun acc m => acc + m.Weight) 0

/-- Accumulation of weightedScore in the loop of printMetricItems
(report.go lines 164-167). -/
def metricsWeightedScore (metrics : List MetricResult) : ℚ :=
  metrics.foldl (fun acc m => acc + m.Score * m.Weight) 0

/-- Data of the score-calculation breakdown printMetricItems prints under
the positive-total-weight guard (report.go lines 199-221): the
score-times-weight terms, the total weight, and the final overall
score. -/
structure ScoreCalc where
  terms : List (ℚ × ℚ)
  totalWeight : ℚ
  overallScore : ℚ
  deriving Repr, DecidableEq

/-- Score-calculation part of printMetricItems (report.go lines 160-221):
accumulate weights and weighted scores over the sorted metrics; print the
breakdown only when totalWeight is positive. -/
def printMetricItemsCalc (r : AnalysisResult) : Option ScoreCalc :=
  let metrics := getSortedMetrics r
  let totalWeight := metricsTotalWeight metrics
  let weightedScore := metricsWeightedScore metrics
  if 0 < totalWeight then
    some ⟨metrics.map (fun m => (goRound (m.Score * 10000) / 100, m.Weight)),
          totalWeight,
          goRound (weightedScore / totalWeight * 10000) / 100⟩
  else
    none

/-- Claim-side sum of Weight over the values of the Metrics map itself. -/
def mapTotalWeight (r : AnalysisResult) : ℚ :=
  ((r.Metrics.map Prod.snd).map MetricResult.Weight).sum

/-- Claim-side sum of Score times Weight over the values of the Metrics
map itself. -/
def mapWeightedScore (r : AnalysisResult) : ℚ :=
  ((r.Metrics.map Prod.snd).map (fun m => m.Score * m.Weight)).sum

/-- Concrete one-metric MetricResult used by witnesses. -/
def mEx : MetricResult := ⟨"metricX", 2, 1/4, "desc"⟩

/-- Concrete AnalysisResult with one metric, used by witnesses. -/
def rOne : AnalysisResult := ⟨1, 10, [("metricX", mEx)], [], 1/4⟩

/-- Concrete empty AnalysisResult, used by witnesses. -/
def rEmpty : AnalysisResult := ⟨0, 0, [], [], 0⟩

/-- Record ReportOptions (report.go lines 76-81). -/
structure ReportOptions where
  Verbose : Bool
  TopFiles : ℤ
  MaxIssues : ℤ
  SummaryOnly : Bool
  deriving Repr, DecidableEq

/-- Value DefaultReportOptions (report.go lines 84-89). -/
def DefaultReportOptions : ReportOptions := ⟨false, 3, 3, false⟩

/-- Go function shortenPath (report.go lines 543-550). -/
def shortenPath (path : String) : String :=
  let parts := path.splitOn "/"
  if parts.length ≤ 4 then path
  else "./" ++ String.intercalate "/" (parts.drop (parts.length - 3))

/-- Go function getScoreColor (report.go lines 674-683). -/
def getScoreColor (score : ℚ) : GoColor :=
  if (7 : ℚ)/10 < score then dangerStyle
  else if (3 : ℚ)/10 < score then warningStyle
  else goodStyle

/-- Go function getTotalIssues (report.go lines 665-671). -/
def getTotalIssues (r : AnalysisResult) : ℤ :=
  r.FilesAnalyzed.foldl (fun total file => total + (file.Issues.length : ℤ)) 0

/-- Go function printDivider (report.go lines 138-140): a line of 80
box-drawing dashes. -/
def printDivider : String := String.mk (List.replicate 80 '─')

/-- Go function getMetricComment (report.go lines 225-299): pick a
comment key from the keywords of the metric name (per UI language) and
the score band, or fall back to a hard-coded default comment. -/
def getMetricComment (t : Translator) (metricName : String) (score : ℚ) : String :=
  let level := if score < 30 then "good" else if score < 70 then "medium" else "bad"
  let nameKey := goToLower metricName
  match t.language with
  | Lang.EnUS =>
    if goContains nameKey "complexity" then
      t.translate ("metric.complexity." ++ level)
    else if goContains nameKey "function" || goContains nameKey "length" then
      t.translate ("metric.length." ++ level)
    else if goContains nameKey "comment" then
      t.translate ("metric.comment." ++ level)
    else if goContains nameKey "error" then
      t.translate ("metric.error." ++ level)
    else if goContains nameKey "naming" then
      t.translate ("metric.naming." ++ level)
    else if goContains nameKey "duplication" then
      t.translate ("metric.duplication." ++ level)
    else if goContains nameKey "structure" then
      t.translate ("metric.structure." ++ level)
    else if score < 30 then "Like a spring breeze, code kissed by angels"
    else if score < 70 then "Not bad, not great, perfectly balanced"
    else "Needs serious improvement, like yesterday"
  | Lang.ZhCN =>
    if goContains nameKey "复杂度" then
      t.translate ("metric.complexity." ++ level)
    else if goContains nameKey "长度" then
      t.translate ("metric.length." ++ level)
    else if goContains nameKey "注释" then
      t.translate ("metric.comment." ++ level)
    else if goContains nameKey "错误" then
      t.translate ("metric.error." ++ level)
    else if goContains nameKey "命名" then
      t.translate ("metric.naming." ++ level)
    else if goContains nameKey "重复" then
      t.translate ("metric.duplication." ++ level)
    else if goContains nameKey "结构" then
      t.translate ("metric.structure." ++ level)
    else if score < 30 then "如沐春风，代码仿佛被天使亲吻过"
    else if score < 70 then "不咸不淡，刚刚好，就像人生的平凡日子"
    else "惨不忍睹，建议重写，或者假装没看见"

/-- Go function printMetricItems (report.go lines 143-222), text part:
the section header, one line per sorted metric (status mark, name,
percent score, comment), and the score-calculation breakdown when the
guard admits it.  Column padding is abbreviated. -/
def printMetricItems (t : Translator) (r : AnalysisResult) : List String :=
  let metrics := getSortedMetrics r
  let header := "◆ " ++ t.translate "report.metrics_details"
  let lines := metrics.map (fun m =>
    let scorePercentage := goRound (m.Score * 10000) / 100
    let statusEmoji :=
      if scorePercentage < 30 then "✓"
      else if scorePercentage < 70 then "!"
      else "✗"
    statusEmoji ++ " " ++ m.Name ++ " " ++ toString scorePercentage ++
      t.translate "metric.score.suffix" ++ "  " ++
      getMetricComment t m.Name scorePercentage)
  let calcLines :=
    match printMetricItemsCalc r with
    | some sc =>
      [t.translate "report.score_calc" ++ "(" ++
        String.intercalate " + "
          (sc.terms.map (fun p => toString p.1 ++ "×" ++ toString p.2)) ++
        ") ÷ " ++ toString sc.totalWeight ++ " = " ++ toString sc.overallScore]
    | none => []
  header :: lines ++ calcLines

/-- Per-file block of printTopIssues (report.go lines 344-466): file
line, category statistics in the fixed order, then up to MaxIssues issues
with their icons and a more-issues notice. -/
def fileBlockTop (t : Translator) (options : ReportOptions)
    (i : ℕ) (f : FileAnalysisResult) : List String :=
  let headerLine := toString (i + 1) ++ ". " ++ shortenPath f.FilePath ++
    " (" ++ t.translate "report.file_score" ++ " " ++
    toString (goRound (f.FileScore * 10000) / 100) ++ ")"
  let catLines := allCategories.filterMap (fun c =>
    match categorizeIssues f.Issues (categoryKey c) with
    | some count =>
      some (categoryIcon c ++ t.translate ("issue.category." ++ categoryKey c) ++
        ": " ++ toString count)
    | none => none)
  let issueLines :=
    if f.Issues.isEmpty then
      ["✓ " ++ t.translate "verbose.file_good_quality"]
    else
      let maxIssues := min options.MaxIssues (f.Issues.length : ℤ)
      (f.Issues.take maxIssues.toNat).map
        (fun issue => (getIssueIconAndColor issue).1 ++ issue) ++
      (if options.Verbose = false ∧ maxIssues < (f.Issues.length : ℤ) then
        ["🔍 " ++ t.translate "report.more_issues" ++ " " ++
          toString ((f.Issues.length : ℤ) - maxIssues)]
      else [])
  headerLine :: catLines ++ issueLines

/-- Go function printTopIssues (report.go lines 316-467): sort the files
(on a fresh copy), show the worst TopFiles of them.  State-passing
returns the AnalysisResult the printer operated on. -/
def printTopIssues (t : Translator) (r : AnalysisResult)
    (options : ReportOptions) : AnalysisResult × List String :=
  let header := "◆ " ++ t.translate "report.worst_files"
  let sorted := getSortedFiles r
  let r := sorted.1
  let allFiles := sorted.2
  let lines :=
    if allFiles.isEmpty then
      [header, "🎉 " ++ t.translate "report.no_issues"]
    else
      let maxFiles := min options.TopFiles (allFiles.length : ℤ)
      header ::
        ((allFiles.take maxFiles.toNat).enum.map
          (fun fi => fileBlockTop t options fi.1 fi.2)).flatten
  (r, lines)

/-- Per-file block of printAllFiles (report.go lines 713-833): like
fileBlockTop, but in verbose mode every issue is shown. -/
def fileBlockAll (t : Translator) (options : ReportOptions)
    (i : ℕ) (f : FileAnalysisResult) : List String :=
  let headerLine := toString (i + 1) ++ ". " ++ shortenPath f.FilePath ++
    " (" ++ t.translate "report.file_score" ++ " " ++
    toString (goRound (f.FileScore * 10000) / 100) ++ ")"
  let catLines := allCategories.filterMap (fun c =>
    match categorizeIssues f.Issues (categoryKey c) with
    | some count =>
      some (categoryIcon c ++ t.translate ("issue.category." ++ categoryKey c) ++
        ": " ++ toString count)
    | none => none)
  let issueLines :=
    if f.Issues.isEmpty then
      ["✓ " ++ t.translate "verbose.file_good_quality"]
    else
      let maxIssues :=
        if options.Verbose = false then min options.MaxIssues (f.Issues.length : ℤ)
        else (f.Issues.length : ℤ)
      (f.Issues.take maxIssues.toNat).map
        (fun issue => (getIssueIconAndColor issue).1 ++ issue) ++
      (if options.Verbose = false ∧ maxIssues < (f.Issues.length : ℤ) then
        ["🔍 " ++ t.translate "report.more_issues" ++ " " ++
          toString ((f.Issues.length : ℤ) - maxIssues)]
      else [])
  headerLine :: catLines ++ issueLines

/-- Go function printAllFiles (report.go lines 686-834): sorted files,
all of them in verbose mode, else the first TopFiles. -/
def printAllFiles (t : Translator) (r : AnalysisResult)
    (options : ReportOptions) : AnalysisResult × List String :=
  let header := "◆ " ++ t.translate "verbose.all_files"
  let sorted := getSortedFiles r
  let r := sorted.1
  let files := sorted.2
  let lines :=
    if files.isEmpty then
      [header, t.translate "verbose.no_files_found"]
    else
      let maxFilesToShow :=
        if options.Verbose = false ∧ 0 < options.TopFiles ∧
            options.TopFiles < (files.length : ℤ) then
          options.TopFiles
        else (files.length : ℤ)
      header ::
        ((files.take maxFilesToShow.toNat).enum.map
          (fun fi => fileBlockAll t options fi.1 fi.2)).flatten
  (r, lines)

/-- Go function printSummary (report.go lines 553-576): conclusion
header, the level line, and the advice picked from the MinScore of the
level. -/
def printSummary (t : Translator) (level : QualityLevel) : List String :=
  ["◆ " ++ t.translate "report.conclusion",
   level.Emoji ++ " " ++ t.translate level.NameKey ++ " - " ++
     t.translate level.Description,
   if level.MinScore < 30 then t.translate "advice.good"
   else if level.MinScore < 60 then t.translate "advice.moderate"
   else t.translate "advice.bad"]

/-- Go function printVerboseInfo (report.go lines 631-662): statistics
plus detail lines for each sorted metric. -/
def printVerboseInfo (t : Translator) (r : AnalysisResult) :
    AnalysisResult × List String :=
  let metrics := getSortedMetrics r
  (r,
    ["◆ " ++ t.translate "verbose.basic_statistics",
     "📊 " ++ t.translate "verbose.basic_statistics",
     t.translate "verbose.total_files" ++ " " ++ toString r.TotalFiles,
     t.translate "verbose.total_lines" ++ " " ++ toString r.TotalLines,
     t.translate "verbose.total_issues" ++ " " ++ toString (getTotalIssues r),
     "🔍 " ++ t.translate "verbose.metric_details"] ++
    (metrics.map (fun m =>
      ["【" ++ m.Name ++ "】(" ++ t.translate "verbose.weight" ++ " " ++
        toString m.Weight ++ ")",
       t.translate "verbose.description" ++ " " ++ m.Description,
       t.translate "verbose.score" ++ " " ++
         toString (goRound (m.Score * 10000) / 100) ++ "/100"])).flatten)

/-- Go method GenerateConsoleReport (report.go lines 92-135),
state-threaded: a nil options pointer falls back to the defaults; the
returned AnalysisResult is the state after all printers ran. -/
def generateConsoleReport (t : Translator) (r : AnalysisResult)
    (options? : Option ReportOptions) : AnalysisResult × List String :=
  let options := options?.getD DefaultReportOptions
  let score := r.CodeQualityScore
  let level := getQualityLevel score
  let headerLines :=
    [printDivider,
     level.Emoji ++ " " ++ t.translate "report.title" ++ " " ++ level.Emoji,
     printDivider]
  let scoreLines :=
    [t.translate "report.overall_score" ++ " " ++
      toString (goRound (score * 10000) / 100) ++ " - " ++
      (printScoreComment t score).2,
     t.translate "report.level" ++ " " ++ t.translate level.NameKey ++
      " - " ++ t.translate level.Description]
  let step1 :=
    if options.SummaryOnly = false then
      let metricLines := printMetricItems t r
      let sub :=
        if options.Verbose = true then printAllFiles t r options
        else printTopIssues t r options
      (sub.1, metricLines ++ sub.2)
    else (r, ([] : List String))
  let summaryLines := printSummary t level
  let step2 :=
    if options.Verbose = true then printVerboseInfo t step1.1
    else (step1.1, ([] : List String))
  (step2.1,
    headerLines ++ scoreLines ++ step1.2 ++ summaryLines ++ step2.2 ++
      [printDivider])

theorem total7_bump (f : Category → ℕ) (c : Category) :
    total7 (fun d => if d = c then f d + 1 else f d) = total7 f + 1 := by
  cases c <;> simp [total7] <;> omega

theorem total7_foldl (issues : List String) :
    ∀ init : Category → ℕ,
      total7 (issues.foldl
        (fun acc i => fun c => if c = classifyIssue i then acc c + 1 else acc c)
        init) = total7 init + issues.length := by
  induction issues with
  | nil => intro init; simp
  | cons i is ih =>
    intro init
    simp only [List.foldl_cons, List.length_cons]
    rw [ih]
    rw [total7_bump init (classifyIssue i)]
    omega

theorem total7_countCategories (issues : List String) :
    total7 (countCategories issues) = issues.length := by
  unfold countCategories
  rw [total7_foldl]
  simp [total7]

theorem mem_of_categoryOfKey_some {k : String} {c : Category}
    (h : categoryOfKey k = some c) :
    k ∈ ["complexity", "comment", "naming", "structure", "duplication",
         "error", "other"] := by
  unfold categoryOfKey at h
  repeat' split at h
  all_goals simp_all

theorem metricsTotalWeight_foldl (l : List MetricResult) :
    ∀ c : ℚ, l.foldl (fun acc m => acc + m.Weight) c =
      c + (l.map MetricResult.Weight).sum := by
  induction l with
  | nil => intro c; simp
  | cons m t ih =>
    intro c
    simp only [List.foldl_cons, List.map_cons, List.sum_cons]
    rw [ih]
    ring

theorem metricsWeightedScore_foldl (l : List MetricResult) :
    ∀ c : ℚ, l.foldl (fun acc m => acc + m.Score * m.Weight) c =
      c + (l.map (fun m => m.Score * m.Weight)).sum := by
  induction l with
  | nil => intro c; simp
  | cons m t ih =>
    intro c
    simp only [List.foldl_cons, List.map_cons, List.sum_cons]
    rw [ih]
    ring

theorem metricsTotalWeight_sorted (r : AnalysisResult) :
    metricsTotalWeight (getSortedMetrics r) = mapTotalWeight r := by
  unfold metricsTotalWeight mapTotalWeight
  rw [metricsTotalWeight_foldl]
  have hp : (getSortedMetrics r).Perm (r.Metrics.map Prod.snd) :=
    List.perm_insertionSort _ _
  rw [List.Perm.sum_eq (hp.map MetricResult.Weight)]
  ring

theorem metricsWeightedScore_sorted (r : AnalysisResult) :
    metricsWeightedScore (getSortedMetrics r) = mapWeightedScore r := by
  unfold metricsWeightedScore mapWeightedScore
  rw [metricsWeightedScore_foldl]
  have hp : (getSortedMetrics r).Perm (r.Metrics.map Prod.snd) :=
    List.perm_insertionSort _ _
  rw [List.Perm.sum_eq (hp.map (fun m => m.Score * m.Weight))]
  ring

/-- C1 (failing input): for the in-range overall score one half, whose
displayed percentage is 50, getQualityLevel returns the MinScore-0 entry
(level.clean) — it compares the raw score in [0,1] against the 0-100
thresholds of the table — while the claim (and the banding of the table
itself) prescribes the MinScore-50 entry (level.disaster).  The two
disagree, so the claim fails on the code. -/
theorem getQualityLevel_ignores_percent_bands :
    getQualityLevel (1/2) = ⟨0, "level.clean", "level.clean.description", "🌱"⟩ ∧
    qualityLevelOfDisplayedScore (1/2) =
      ⟨50, "level.disaster", "level.disaster.description", "🤕"⟩ ∧
    getQualityLevel (1/2) ≠ qualityLevelOfDisplayedScore (1/2) := by
  refine ⟨?_, ?_, ?_⟩
  · unfold getQualityLevel QualityLevels
    norm_num [findLevelDesc]
  · unfold qualityLevelOfDisplayedScore QualityLevels
    norm_num [findLevelDesc]
  · unfold getQualityLevel qualityLevelOfDisplayedScore QualityLevels
    norm_num [findLevelDesc]

/-- C2: printScoreComment compares the raw overall score in [0,1]
directly against 30 and 70, so for every valid overall score its first
branch fires and the comment is printed with the good style. -/
theorem printScoreComment_always_good_style (t : Translator) (s : ℚ)
    (h0 : 0 ≤ s) (h1 : s ≤ 1) : (printScoreComment t s).1 = goodStyle := by
  unfold printScoreComment
  have hs : s < 30 := by linarith
  rw [if_pos hs]

/-- Witness for C2 at the in-range score one half. -/
theorem printScoreComment_always_good_style_witness :
    (0 ≤ (1/2 : ℚ)) ∧ ((1/2 : ℚ) ≤ 1) ∧
      (printScoreComment trId (1/2)).1 = goodStyle :=
  ⟨by norm_num, by norm_num,
    printScoreComment_always_good_style trId (1/2) (by norm_num) (by norm_num)⟩

/-- C10: on scores in [0,1], getScoreComment translates the key
score.comment.R with R equal to min 90 of the floor of 100 times the
score, truncated to a multiple of ten, and R is one of the ten decade
values 0, 10, ..., 90. -/
theorem getScoreComment_decade_key (t : Translator) (s : ℚ)
    (h0 : 0 ≤ s) (h1 : s ≤ 1) :
    getScoreComment t s =
      t.translate ("score.comment." ++ toString (min 90 (⌊(100 * s : ℚ)⌋ / 10 * 10))) ∧
    min 90 (⌊(100 * s : ℚ)⌋ / 10 * 10) ∈ ([0, 10, 20, 30, 40, 50, 60, 70, 80, 90] : List ℤ) := by
  have hfloor0 : (0 : ℤ) ≤ ⌊(100 * s : ℚ)⌋ := Int.floor_nonneg.mpr (by positivity)
  have hfloor100 : ⌊(100 * s : ℚ)⌋ ≤ 100 := by
    have h := Int.floor_le_floor (α := ℚ) (by linarith : (100 * s : ℚ) ≤ 100)
    simpa using h
  constructor
  · unfold getScoreComment goInt
    dsimp only
    rw [if_pos (by positivity : (0 : ℚ) ≤ s * 100)]
    rw [show (s * 100 : ℚ) = 100 * s from by ring]
    rw [Int.tdiv_eq_ediv hfloor0 (by norm_num)]
    have hmin : ∀ x : ℤ, (if 90 < x then (90 : ℤ) else x) = min 90 x := by
      intro x
      rcases lt_or_le 90 x with h | h
      · rw [if_pos h, min_eq_left h.le]
      · rw [if_neg (not_lt.mpr h), min_eq_right h]
    rw [hmin]
  · set k := ⌊(100 * s : ℚ)⌋ with hk
    have hd0 : 0 ≤ k / 10 := by omega
    have hd10 : k / 10 ≤ 10 := by omega
    set d := k / 10 with hd
    clear_value d
    interval_cases d <;> decide

/-- Witness for C10 at the in-range score one half. -/
theorem getScoreComment_decade_key_witness :
    (0 ≤ (1/2 : ℚ)) ∧ ((1/2 : ℚ) ≤ 1) ∧
      (getScoreComment trId (1/2) =
        trId.translate ("score.comment." ++ toString (min 90 (⌊(100 * (1/2) : ℚ)⌋ / 10 * 10))) ∧
      min 90 (⌊(100 * (1/2) : ℚ)⌋ / 10 * 10) ∈ ([0, 10, 20, 30, 40, 50, 60, 70, 80, 90] : List ℤ)) :=
  ⟨by norm_num, by norm_num,
    getScoreComment_decade_key trId (1/2) (by norm_num) (by norm_num)⟩

/-- C3: the two independent keyword switches agree — for every issue
string, getIssueIconAndColor returns exactly the icon and colour of the
category whose counter categorizeIssues increments for that string. -/
theorem issue_classifiers_agree (issue : String) :
    getIssueIconAndColor issue =
      (categoryIcon (classifyIssue issue), categoryColor (classifyIssue issue)) := by
  unfold getIssueIconAndColor classifyIssue
  dsimp only
  repeat' split
  all_goals rfl

/-- C7: an issue string containing none of the category keywords is
classified into the other bucket, and categorizeIssues counts it there —
no issue is dropped by classification. -/
theorem keywordless_issues_fall_to_other (issue : String)
    (h : hasCategoryKeyword issue = false) :
    classifyIssue issue = Category.other ∧
    categorizeIssues [issue] "other" = some 1 := by
  have hc : classifyIssue issue = Category.other := by
    unfold hasCategoryKeyword at h
    unfold classifyIssue
    dsimp only at h ⊢
    simp only [Bool.or_eq_false_iff] at h
    simp [h.1.1.1.1.1.1.1.1.1.1.1.1.1.1, h.1.1.1.1.1.1.1.1.1.1.1.1.1.2,
      h.1.1.1.1.1.1.1.1.1.1.1.1.2, h.1.1.1.1.1.1.1.1.1.1.1.2,
      h.1.1.1.1.1.1.1.1.1.1.2, h.1.1.1.1.1.1.1.1.1.2, h.1.1.1.1.1.1.1.1.2,
      h.1.1.1.1.1.1.1.2, h.1.1.1.1.1.1.2, h.1.1.1.1.1.2, h.1.1.1.1.2,
      h.1.1.1.2, h.1.1.2, h.1.2, h.2]
  refine ⟨hc, ?_⟩
  unfold categorizeIssues categoryOfKey countCategories
  simp [hc]

/-- Witness for C7 on a keyword-free issue string. -/
theorem keywordless_issues_fall_to_other_witness :
    hasCategoryKeyword "hello world" = false ∧
    (classifyIssue "hello world" = Category.other ∧
      categorizeIssues ["hello world"] "other" = some 1) :=
  ⟨by decide, keywordless_issues_fall_to_other "hello world" (by decide)⟩

/-- C9: the map categorizeIssues returns has keys drawn only from the
seven fixed category names, every stored count is at least 1 (zero-count
categories are deleted), and the counts sum to the number of issues. -/
theorem categorizeIssues_invariants (issues : List String) :
    (∀ k, (categorizeIssues issues k).isSome = true →
      k ∈ ["complexity", "comment", "naming", "structure", "duplication",
           "error", "other"]) ∧
    (∀ k n, categorizeIssues issues k = some n → 1 ≤ n) ∧
    ((["complexity", "comment", "naming", "structure", "duplication",
       "error", "other"].map
        (fun k => (categorizeIssues issues k).getD 0)).sum = issues.length) := by
  have hg : ∀ n : ℕ, (Option.getD (if n = 0 then none else some n) 0) = n := by
    intro n
    split
    · simp_all
    · simp
  refine ⟨?_, ?_, ?_⟩
  · intro k h
    unfold categorizeIssues at h
    split at h
    · exact mem_of_categoryOfKey_some (by assumption)
    · simp at h
  · intro k n h
    unfold categorizeIssues at h
    split at h
    · dsimp only at h
      split at h
      · simp at h
      · simp only [Option.some.injEq] at h
        omega
    · simp at h
  · have e1 : (categorizeIssues issues "complexity").getD 0 =
        countCategories issues Category.complexity := hg _
    have e2 : (categorizeIssues issues "comment").getD 0 =
        countCategories issues Category.comment := hg _
    have e3 : (categorizeIssues issues "naming").getD 0 =
        countCategories issues Category.naming := hg _
    have e4 : (categorizeIssues issues "structure").getD 0 =
        countCategories issues Category.struct := hg _
    have e5 : (categorizeIssues issues "duplication").getD 0 =
        countCategories issues Category.duplication := hg _
    have e6 : (categorizeIssues issues "error").getD 0 =
        countCategories issues Category.error := hg _
    have e7 : (categorizeIssues issues "other").getD 0 =
        countCategories issues Category.other := hg _
    simp only [List.map, List.sum_cons, List.sum_nil]
    rw [e1, e2, e3, e4, e5, e6, e7]
    have h := total7_countCategories issues
    unfold total7 at h
    omega

/-- Witness for C9: a concrete issue list, a stored key with its count. -/
theorem categorizeIssues_invariants_witness :
    categorizeIssues ["too much complexity"] "complexity" = some 1 ∧ 1 ≤ 1 :=
  ⟨by decide,
    (categorizeIssues_invariants ["too much complexity"]).2.1 "complexity" 1
      (by decide)⟩

/-- C8: getSortedMetrics returns exactly the values of the Metrics map in
non-decreasing Score order, and getSortedFiles returns a permutation of
FilesAnalyzed in non-increasing FileScore order. -/
theorem sorted_views_are_sorted_permutations (r : AnalysisResult) :
    (getSortedMetrics r).Perm (r.Metrics.map Prod.snd) ∧
    List.Sorted (fun a b => a.Score ≤ b.Score) (getSortedMetrics r) ∧
    ((getSortedFiles r).2).Perm r.FilesAnalyzed ∧
    List.Sorted (fun a b => b.FileScore ≤ a.FileScore) ((getSortedFiles r).2) := by
  refine ⟨List.perm_insertionSort _ _, ?_, ?_, ?_⟩
  · exact @List.sorted_insertionSort MetricResult (fun a b => a.Score ≤ b.Score) _
      ⟨fun a b => le_total _ _⟩ ⟨fun _ _ _ hab hbc => le_trans hab hbc⟩ _
  · have h := List.perm_insertionSort
      (fun a b : FileAnalysisResult => b.FileScore ≤ a.FileScore)
      ([] ++ r.FilesAnalyzed)
    simpa [getSortedFiles] using h
  · have h := @List.sorted_insertionSort FileAnalysisResult
      (fun a b => b.FileScore ≤ a.FileScore) _
      ⟨fun a b => le_total _ _⟩ ⟨fun _ _ _ hab hbc => le_trans hbc hab⟩
      ([] ++ r.FilesAnalyzed)
    simpa [getSortedFiles] using h

/-- C4: whenever the total weight of the metrics map is positive, the
overall score printMetricItems prints in the breakdown is exactly the
weighted aggregate (sum of Score times Weight over sum of Weight) over
the metrics map, scaled to percent and rounded to two decimals — it is
reproducible from the Metrics field alone. -/
theorem printed_overall_score_reproducible (r : AnalysisResult)
    (h : 0 < mapTotalWeight r) :
    (printMetricItemsCalc r).map ScoreCalc.overallScore =
      some (goRound (mapWeightedScore r / mapTotalWeight r * 10000) / 100) := by
  unfold printMetricItemsCalc
  dsimp only
  rw [metricsTotalWeight_sorted, metricsWeightedScore_sorted, if_pos h]
  rfl

/-- Witness for C4 on the one-metric result. -/
theorem printed_overall_score_reproducible_witness :
    0 < mapTotalWeight rOne ∧
    (printMetricItemsCalc rOne).map ScoreCalc.overallScore =
      some (goRound (mapWeightedScore rOne / mapTotalWeight rOne * 10000) / 100) :=
  ⟨by norm_num [mapTotalWeight, rOne, mEx],
    printed_overall_score_reproducible rOne
      (by norm_num [mapTotalWeight, rOne, mEx])⟩

/-- C5: the score-calculation breakdown is printed only under the
positive-total-weight guard, and an empty metrics map yields total weight
0 and no breakdown — the division by totalWeight never happens with a
zero divisor. -/
theorem score_calc_division_guarded (r : AnalysisResult) :
    ((printMetricItemsCalc r).isSome = true →
      0 < metricsTotalWeight (getSortedMetrics r)) ∧
    (r.Metrics = [] →
      metricsTotalWeight (getSortedMetrics r) = 0 ∧
      printMetricItemsCalc r = none) := by
  constructor
  · intro h
    unfold printMetricItemsCalc at h
    dsimp only at h
    split at h
    · assumption
    · simp at h
  · intro he
    have h0 : getSortedMetrics r = [] := by
      unfold getSortedMetrics
      rw [he]
      rfl
    have hw : metricsTotalWeight (getSortedMetrics r) = 0 := by
      rw [h0]
      rfl
    refine ⟨hw, ?_⟩
    unfold printMetricItemsCalc
    dsimp only
    rw [if_neg]
    rw [hw]
    norm_num

/-- Witness for C5: the empty result is skipped, and a breakdown that is
printed has positive total weight. -/
theorem score_calc_division_guarded_witness :
    (metricsTotalWeight (getSortedMetrics rEmpty) = 0 ∧
      printMetricItemsCalc rEmpty = none) ∧
    (printMetricItemsCalc rOne).isSome = true ∧
    0 < metricsTotalWeight (getSortedMetrics rOne) :=
  ⟨(score_calc_division_guarded rEmpty).2 rfl,
    by norm_num [printMetricItemsCalc, getSortedMetrics, metricsTotalWeight,
      rOne, mEx, List.insertionSort, List.orderedInsert],
    (score_calc_division_guarded rOne).1
      (by norm_num [printMetricItemsCalc, getSortedMetrics, metricsTotalWeight,
        rOne, mEx, List.insertionSort, List.orderedInsert])⟩

/-- C6: generating a console report never mutates the AnalysisResult it
consumes — the threaded state comes back unchanged for every result and
every options value (including the nil default) — and in particular
getSortedFiles hands back its input untouched, having sorted a fresh
copy. -/
theorem generateConsoleReport_preserves_result (t : Translator)
    (r : AnalysisResult) (options? : Option ReportOptions) :
    (generateConsoleReport t r options?).1 = r ∧ (getSortedFiles r).1 = r := by
  constructor
  · unfold generateConsoleReport
    cases hS : (options?.getD DefaultReportOptions).SummaryOnly <;>
      cases hV : (options?.getD DefaultReportOptions).Verbose <;>
        simp [hS, hV, printTopIssues, printAllFiles, printVerboseInfo,
          getSortedFiles]
  · rfl
